import Mathlib

/-!
Verification of the request/response normalization pipeline of the Apollo
MCP proxy server (`src/build/index.js`).

The pipeline consists of three functions shared by every tool:
* `makeApolloRequest` — performs the outbound request and classifies the
  transport outcome into a result record
  `\x7b data, error, statusCode, preview, priceUsd \x7d` (lines 64-122);
* `formatPreviewResponse` — renders a 402 "payment required" preview body
  as a non-error record (lines 127-179);
* `handleToolError` — converts the result record into an error record, a
  preview record, or `null` (lines 183-195).

JSON values are embedded as a mutual inductive `Json` / `JsonArr` /
`JsonObj`; JS numbers are modelled as exact decimals
`mantissa * 10 ^ (-scale)`, which round-trips the number literals the
program exercises (e.g. `0.05`, `500`). The network is modelled by a
`FetchOutcome` parameter: either a response (status, body text, and the
result of attempting to JSON-parse the body) or a thrown transport error
carrying a message.
-/

mutual
/-- A JSON value. `num m s` denotes the decimal `m * 10 ^ (-s)`. -/
inductive Json where
  | null : Json
  | bool : Bool → Json
  | num : Int → Nat → Json
  | str : String → Json
  | arr : JsonArr → Json
  | obj : JsonObj → Json
deriving DecidableEq

/-- The elements of a JSON array, in order. -/
inductive JsonArr where
  | nil : JsonArr
  | cons : Json → JsonArr → JsonArr
deriving DecidableEq

/-- The fields of a JSON object, in insertion order (the iteration order
of `Object.keys` in the source for the non-integer-like keys the program
inspects; JS objects cannot carry duplicate keys). -/
inductive JsonObj where
  | nil : JsonObj
  | cons : String → Json → JsonObj → JsonObj
deriving DecidableEq
end

/-- Builds a `JsonArr` from a list literal. -/
def jarr : List Json → JsonArr
  | [] => .nil
  | x :: xs => .cons x (jarr xs)

/-- Builds a `JsonObj` from a list literal of fields. -/
def jobj : List (String × Json) → JsonObj
  | [] => .nil
  | (k, v) :: fs => .cons k v (jobj fs)

namespace Json

/-- JS truthiness of a JSON value: `null`, `false`, `0`, and `""` are
falsy; every object and array (even empty) is truthy. -/
def truthy : Json → Bool
  | .null => false
  | .bool b => b
  | .num m _ => m != 0
  | .str s => !(s == "")
  | .arr _ => true
  | .obj _ => true

/-- Models the source's `body && typeof body === "object"` test on a
parsed JSON value: true exactly for objects and arrays (`typeof null` is
`"object"` but `null` is falsy; primitives are not objects). -/
def isObjectLike : Json → Bool
  | .arr _ => true
  | .obj _ => true
  | _ => false

end Json

/-- First field with the given key, as JS property lookup on an object. -/
def JsonObj.get? : JsonObj → String → Option Json
  | .nil, _ => none
  | .cons k v fs, key => if k == key then some v else fs.get? key

/-- Property access `body[key]` on a parsed JSON value: field lookup on an
object, `undefined` (`none`) otherwise (the string keys the program probes
never hit array indices). -/
def Json.get? : Json → String → Option Json
  | .obj fs, k => fs.get? k
  | _, _ => none

theorem Json.truthy_of_isObjectLike (v : Json) (h : v.isObjectLike = true) :
    v.truthy = true := by
  cases v <;> simp_all [Json.isObjectLike, Json.truthy]

/-- Prefix test on strings (JS `String.prototype.startsWith`). -/
def strStartsWith (s p : String) : Bool := p.data.isPrefixOf s.data

/-- `needle.isPrefixOf hay` at every suffix of `hay`. -/
def listInfixOf (needle : List Char) : List Char → Bool
  | [] => needle.isEmpty
  | c :: rest => needle.isPrefixOf (c :: rest) || listInfixOf needle rest

/-- Substring containment test (JS `String.prototype.includes`). -/
def strContains (hay needle : String) : Bool := listInfixOf needle.data hay.data

/-- Number rendering as JS performs it in template literals and
`JSON.stringify` for decimals that round-trip exactly: an integer prints
with no point, a fraction prints with `scale` digits after the point. -/
def renderNum (m : Int) (s : Nat) : String :=
  if s = 0 then toString m
  else
    let sign := if m < 0 then "-" else ""
    let n := m.natAbs
    let d := 10 ^ s
    let ip := n / d
    let fp := n % d
    let fpDigits := toString fp
    let pad := String.mk (List.replicate (s - fpDigits.length) '0')
    sign ++ toString ip ++ "." ++ pad ++ fpDigits

/-- Escape one character as `JSON.stringify` does (the bodies the program
serializes contain no other control characters). -/
def escapeChar (c : Char) : String :=
  if c = '"' then "\\\""
  else if c = '\\' then "\\\\"
  else if c = '\n' then "\\n"
  else if c = '\r' then "\\r"
  else if c = '\t' then "\\t"
  else String.singleton c

/-- A JSON string literal with quotes, as `JSON.stringify` renders it. -/
def quoteStr (s : String) : String :=
  "\"" ++ String.join (s.data.map escapeChar) ++ "\""

/-- `Array.prototype.join`-style joining of rendered pieces. -/
def joinWith (sep : String) : List String → String
  | [] => ""
  | [x] => x
  | x :: y :: xs => x ++ sep ++ joinWith sep (y :: xs)

/-- Indentation prefix at nesting depth `d` for `JSON.stringify(·, null, 2)`. -/
def indentStr (d : Nat) : String := String.mk (List.replicate (2 * d) ' ')

mutual
/-- `JSON.stringify(v, null, 2)` at nesting depth `d`. -/
def stringify (d : Nat) : Json → String
  | .null => "null"
  | .bool true => "true"
  | .bool false => "false"
  | .num m s => renderNum m s
  | .str s => quoteStr s
  | .arr .nil => "[]"
  | .arr a => "[\n" ++ stringifyItems (d + 1) a ++ "\n" ++ indentStr d ++ "]"
  | .obj .nil => "\x7b\x7d"
  | .obj fs => "\x7b\n" ++ stringifyFields (d + 1) fs ++ "\n" ++ indentStr d ++ "\x7d"

/-- The elements of an array, one per line at depth `d`, comma-separated. -/
def stringifyItems (d : Nat) : JsonArr → String
  | .nil => ""
  | .cons x .nil => indentStr d ++ stringify d x
  | .cons x xs => indentStr d ++ stringify d x ++ ",\n" ++ stringifyItems d xs

/-- The fields of an object, one per line at depth `d`, comma-separated. -/
def stringifyFields (d : Nat) : JsonObj → String
  | .nil => ""
  | .cons k v .nil => indentStr d ++ quoteStr k ++ ": " ++ stringify d v
  | .cons k v fs =>
      indentStr d ++ quoteStr k ++ ": " ++ stringify d v ++ ",\n" ++ stringifyFields d fs
end

/-- Element coercion inside `Array.prototype.join`: `null` becomes the
empty string, nested structures coerce shallowly. -/
def jsToStringItem : Json → String
  | .null => ""
  | .bool true => "true"
  | .bool false => "false"
  | .num m s => renderNum m s
  | .str s => s
  | .arr _ => ""
  | .obj _ => "[object Object]"

/-- `Array.prototype.toString`: elements coerced and joined with commas. -/
def jsToStringArr : JsonArr → String
  | .nil => ""
  | .cons x .nil => jsToStringItem x
  | .cons x xs => jsToStringItem x ++ "," ++ jsToStringArr xs

/-- `String(v)` coercion as used by template literals (`$\x7btotalCount\x7d`). -/
def jsToString : Json → String
  | .null => "null"
  | .bool true => "true"
  | .bool false => "false"
  | .num m s => renderNum m s
  | .str s => s
  | .arr xs => jsToStringArr xs
  | .obj _ => "[object Object]"

/-- JS `String.prototype.slice(0, n)`. -/
def jsSlice (s : String) (n : Nat) : String := String.mk (s.data.take n)

/-- The record returned by `makeApolloRequest`
(`\x7b data, error, statusCode, preview, priceUsd \x7d`). `priceUsd` keeps the
decimal representation (mantissa, scale) of the JSON number. -/
structure ApolloResult where
  data : Option Json
  error : Option String
  statusCode : Nat
  preview : Option Json
  priceUsd : Option (Int × Nat)
deriving DecidableEq

/-- What one tool invocation ultimately returns to the caller: a single
text content block and the `isError` flag (absent in the source means
falsy, modelled as `false`). -/
structure OutputRecord where
  text : String
  isError : Bool
deriving DecidableEq

/-- An HTTP response as the pipeline observes it: the status, the body as
text (`response.text()`), and the result of attempting to parse the body
as JSON (`response.json()`), which either succeeds with a value or throws
with a message. -/
structure HttpResponse where
  status : Nat
  bodyText : String
  bodyJson : Except String Json

/-- The outcome of `fetch`: a response, or a transport-level exception
(DNS failure, connection refused, ...) carrying a message. -/
inductive FetchOutcome where
  | ok (r : HttpResponse)
  | thrown (message : String)

/-- `response.ok`: status in the 2xx success range. -/
def responseOk (s : Nat) : Bool := 200 ≤ s && s < 300

/-- `typeof body.price_usd === "number" ? body.price_usd : null`. -/
def priceOf (b : Json) : Option (Int × Nat) :=
  match b.get? "price_usd" with
  | some (.num m s) => some (m, s)
  | _ => none

/-- The response classifier `makeApolloRequest` of `src/build/index.js`
(lines 64-122), as a function of the transport outcome. The outer
`try/catch` also catches the `response.json()` throw of the success
branch, which is why a malformed 2xx body lands in the
`Request failed:` / `statusCode 0` record. -/
def makeApolloRequest (o : FetchOutcome) : ApolloResult :=
  match o with
  | .thrown msg =>
      { data := none, error := some ("Request failed: " ++ msg),
        statusCode := 0, preview := none, priceUsd := none }
  | .ok r =>
      if r.status = 402 then
        match r.bodyJson with
        | .ok b =>
            if b.isObjectLike then
              { data := none, error := some "x402_payment_required",
                statusCode := 402, preview := some b, priceUsd := priceOf b }
            else
              { data := none, error := some "x402_payment_required",
                statusCode := 402, preview := none, priceUsd := none }
        | .error _ =>
            { data := none, error := some "x402_payment_required",
              statusCode := 402, preview := none, priceUsd := none }
      else if !(responseOk r.status) then
        { data := none,
          error := some ("API error (" ++ toString r.status ++ "): "
            ++ jsSlice r.bodyText 500),
          statusCode := r.status, preview := none, priceUsd := none }
      else
        match r.bodyJson with
        | .ok d =>
            { data := some d, error := none, statusCode := r.status,
              preview := none, priceUsd := none }
        | .error e =>
            { data := none, error := some ("Request failed: " ++ e),
              statusCode := 0, preview := none, priceUsd := none }

/-- The fixed, ordered sample-key probe list of `formatPreviewResponse`
(lines 131-136). -/
def sampleKeys : List String :=
  ["sample_opportunities", "sample_items", "sample_results",
   "sample_data", "sample_entries", "sample_launches", "sample_pools",
   "sample_protocols", "sample_coins", "sample_prices",
   "preview_data", "items"]

/-- One iteration of the sample-key loop: `if (preview[key])` — the key
must be present with a truthy value, otherwise the loop continues. -/
def probeKey (b : Json) (k : String) : Option Json :=
  match b.get? k with
  | some v => if v.truthy then some v else none
  | none => none

/-- The sample-data selection loop (lines 140-145): first key of
`sampleKeys` present with a truthy value. -/
def findSample (b : Json) : Option Json := sampleKeys.findSome? (probeKey b)

/-- The total-count scan over the object's own keys in order
(lines 147-152): the first key that starts with `total_` or equals
`count`; its value is taken even when falsy, and the loop breaks. -/
def JsonObj.findTotal : JsonObj → Option Json
  | .nil => none
  | .cons k v fs =>
      if strStartsWith k "total_" || k == "count" then some v else fs.findTotal

/-- The total-count scan on a parsed body; `Object.keys` of an array
yields index strings, which never match the probes. -/
def findTotal : Json → Option Json
  | .obj fs => fs.findTotal
  | _ => none

/-- JS truthiness of a nullable JSON value. -/
def jsTruthyOpt : Option Json → Bool
  | none => false
  | some v => v.truthy

/-- `formatPreviewResponse` (lines 127-179): renders a 402 preview as a
non-error record. -/
def formatPreviewResponse (result : ApolloResult) (toolName : String) : OutputRecord :=
  let price : String :=
    match result.priceUsd with
    | some (m, s) => renderNum m s
    | none => "unknown"
  let sampleData : Option Json :=
    match result.preview with
    | some p => if p.truthy then findSample p else none
    | none => none
  let totalCount : Option Json :=
    match result.preview with
    | some p => if p.truthy then findTotal p else none
    | none => none
  let header : List String := ["## " ++ toolName ++ " — Preview (Free Sample)", ""]
  let totalLine : List String :=
    match totalCount with
    | some Json.null => []
    | some v => ["**Full dataset:** " ++ jsToString v ++ " items available"]
    | none => []
  let sampleBlock : List String :=
    match sampleData with
    | some v => ["**Sample data:**", "```json", jsSlice (stringify 0 v) 3000, "```"]
    | none =>
        match result.preview with
        | some p =>
            if p.truthy then ["```json", jsSlice (stringify 0 p) 3000, "```"] else []
        | none => []
  let footer : List String :=
    ["", "---",
     "💡 **Full dataset: $" ++ price ++ " USDC** on Base mainnet via x402 protocol.",
     "To unlock all data, configure your agent with an x402-compatible wallet.",
     "Setup guide: https://apolloai.team | npm: `npx @apollo_ai/mcp-proxy`"]
  { text := joinWith "\n" (header ++ totalLine ++ sampleBlock ++ footer),
    isError := false }

/-- JS falsiness of `result.error` (`null` or the empty string; every
error string the classifier produces is nonempty). -/
def errFalsy : Option String → Bool
  | none => true
  | some s => decide (s = "")

/-- `$\x7bresult.error\x7d` in the error template. -/
def errText : Option String → String
  | some s => s
  | none => "null"

/-- `handleToolError` (lines 183-195): `null` on success, a preview record
for a 402 with preview, an error record otherwise. -/
def handleToolError (result : ApolloResult) (toolName : String) : Option OutputRecord :=
  if errFalsy result.error then none
  else if result.statusCode = 402 && jsTruthyOpt result.preview then
    some (formatPreviewResponse result toolName)
  else
    some { text := toolName ++ " failed: " ++ errText result.error, isError := true }

/-- The invocation pattern shared by every tool handler: perform the
request, delegate to `handleToolError`, and on success build a record from
the tool's own formatter `fmt` applied to `result.data`, with no
`isError` flag (falsy). -/
def invokeTool (o : FetchOutcome) (toolName : String)
    (fmt : Option Json → String) : OutputRecord :=
  match handleToolError (makeApolloRequest o) toolName with
  | some rec => rec
  | none => { text := fmt (makeApolloRequest o).data, isError := false }

/-- The static `PROXY_COUNTRIES` table (lines 46-54). -/
def PROXY_COUNTRIES : List String :=
  ["US", "GB", "DE", "FR", "NL", "CA", "AU", "JP", "KR", "SG",
   "BR", "MX", "AR", "IN", "ID", "TH", "VN", "PH", "MY", "TW",
   "HK", "IT", "ES", "PT", "PL", "CZ", "AT", "CH", "BE", "SE",
   "NO", "DK", "FI", "IE", "IL", "AE", "SA", "ZA", "NG", "EG",
   "RU", "UA", "TR", "GR", "RO", "HU", "BG", "HR", "SK", "SI",
   "CL", "CO", "PE", "VE", "EC", "PA", "CR", "GT", "DO", "PR",
   "NZ", "PK", "BD", "LK", "NP", "MM", "KH", "LA", "MN", "KZ"]

/-- The static `regions` table of the `list_countries` handler
(lines 727-733), with `regions[region] || []` for any other key. -/
def regionsFor (region : String) : List String :=
  if region == "americas" then
    ["US", "CA", "MX", "BR", "AR", "CL", "CO", "PE", "VE", "EC", "PA", "CR",
     "GT", "DO", "PR"]
  else if region == "europe" then
    ["GB", "DE", "FR", "NL", "IT", "ES", "PT", "PL", "CZ", "AT", "CH", "BE",
     "SE", "NO", "DK", "FI", "IE", "GR", "RO", "HU", "BG", "HR", "SK", "SI",
     "UA", "RU", "TR"]
  else if region == "asia" then
    ["JP", "KR", "SG", "IN", "ID", "TH", "VN", "PH", "MY", "TW", "HK", "PK",
     "BD", "LK", "NP", "MM", "KH", "LA", "MN", "KZ", "IL", "AE", "SA"]
  else if region == "africa" then
    ["ZA", "NG", "EG"]
  else if region == "oceania" then
    ["AU", "NZ"]
  else []

/-- Line 734: `region === "all" ? PROXY_COUNTRIES : regions[region] || []`. -/
def countriesFor (region : String) : List String :=
  if region == "all" then PROXY_COUNTRIES else regionsFor region

/-- The `list_countries` tool handler (lines 725-743). It performs no
request through `makeApolloRequest`: the record is a pure function of the
region argument, built from the static tables. -/
def list_countries (region : String) : OutputRecord :=
  let countries := countriesFor region
  { text := joinWith "\n"
      ["## Available Proxy Countries", "",
       "**Region:** " ++ region,
       "**Total:** " ++ toString countries.length ++ " countries", "",
       "### Country Codes", "",
       joinWith ", " countries, "", "---",
       "Use any 2-letter ISO country code with proxy_fetch.",
       "Example: `proxy_fetch(target_url=\"https://example.com\", country=\"DE\")`"],
    isError := false }

theorem append_ne_empty (s t : String) (h : s ≠ "") : s ++ t ≠ "" := by
  intro hc
  apply h
  have hd : (s ++ t).data = s.data ++ t.data := String.data_append s t
  rw [hc] at hd
  have hs : s.data = [] := by
    have := List.append_eq_nil.mp hd.symm
    exact this.1
  cases s
  simp_all

theorem errFalsy_append (s t : String) (h : s ≠ "") :
    errFalsy (some (s ++ t)) = false := by
  simp [errFalsy]
  exact append_ne_empty s t h

theorem strStartsWith_append (p t : String) : strStartsWith (p ++ t) p = true := by
  simp [strStartsWith, String.data_append, List.isPrefixOf_iff_prefix]

theorem responseOk_402 : responseOk 402 = false := by decide

/-- C2 counterexample: a 2xx response whose body fails to parse is routed
through the generic catch: the result's `statusCode` is `0`, not the
non-zero upstream status the claim requires, and the message is in the
transport-failure format, not the `API error (...)` format. -/
theorem C2_counterexample :
    (makeApolloRequest (.ok ⟨200, "not json", .error "Unexpected token"⟩)).statusCode = 0 ∧
    (makeApolloRequest (.ok ⟨200, "not json", .error "Unexpected token"⟩)).statusCode ≠ 200 ∧
    (makeApolloRequest (.ok ⟨200, "not json", .error "Unexpected token"⟩)).error
      = some ("Request failed: " ++ "Unexpected token") ∧
    strStartsWith
      (errText (makeApolloRequest (.ok ⟨200, "not json", .error "Unexpected token"⟩)).error)
      "API error (" = false := by decide

/-- C2 (amended): a 2xx response whose body fails to parse yields an error
result, never a silent empty success — but it is reported through the
transport-failure branch: the message begins with `Request failed: ` and
the `statusCode` is `0`, not the upstream status. -/
theorem C2_malformed_success (r : HttpResponse) (e : String)
    (hok : responseOk r.status = true) (hb : r.bodyJson = .error e) :
    (makeApolloRequest (.ok r)).error = some ("Request failed: " ++ e) ∧
    (makeApolloRequest (.ok r)).statusCode = 0 ∧
    (makeApolloRequest (.ok r)).data = none := by
  have h402 : r.status ≠ 402 := by
    intro h
    rw [h, responseOk_402] at hok
    exact Bool.false_ne_true hok
  simp [makeApolloRequest, h402, hok, hb]

/-- C2 witness for `C2_malformed_success`. -/
theorem C2_malformed_success_witness :
    (makeApolloRequest (.ok ⟨200, "bad", .error "SyntaxError"⟩)).error
      = some ("Request failed: " ++ "SyntaxError") ∧
    (makeApolloRequest (.ok ⟨200, "bad", .error "SyntaxError"⟩)).statusCode = 0 ∧
    (makeApolloRequest (.ok ⟨200, "bad", .error "SyntaxError"⟩)).data = none :=
  C2_malformed_success ⟨200, "bad", .error "SyntaxError"⟩ "SyntaxError" (by decide) rfl

/-- C6: for every response whose status is neither 402 nor 2xx, the error
message is exactly `API error (<status>): ` followed by the body text
truncated to at most 500 characters, and the `statusCode` equals the
response status. -/
theorem C6_http_error (r : HttpResponse)
    (h402 : r.status ≠ 402) (hok : responseOk r.status = false) :
    (makeApolloRequest (.ok r)).error =
      some ("API error (" ++ toString r.status ++ "): " ++ jsSlice r.bodyText 500) ∧
    (makeApolloRequest (.ok r)).statusCode = r.status ∧
    (jsSlice r.bodyText 500).length ≤ 500 := by
  refine ⟨?_, ?_, ?_⟩
  · simp [makeApolloRequest, h402, hok]
  · simp [makeApolloRequest, h402, hok]
  · show (r.bodyText.data.take 500).length ≤ 500
    exact r.bodyText.data.length_take_le 500

/-- C6 witness for `C6_http_error`. -/
theorem C6_http_error_witness :
    (makeApolloRequest (.ok ⟨500, "boom", .error "e"⟩)).error =
      some ("API error (" ++ toString (500 : Nat) ++ "): " ++ jsSlice "boom" 500) ∧
    (makeApolloRequest (.ok ⟨500, "boom", .error "e"⟩)).statusCode = 500 ∧
    (jsSlice "boom" 500).length ≤ 500 :=
  C6_http_error ⟨500, "boom", .error "e"⟩ (by decide) (by decide)

/-- C7: a transport-level failure never escapes `makeApolloRequest`: it is
returned as data, with an error message that begins with
`Request failed: ` and `statusCode = 0`. -/
theorem C7_transport_failure (m : String) :
    (makeApolloRequest (.thrown m)).error = some ("Request failed: " ++ m) ∧
    (makeApolloRequest (.thrown m)).statusCode = 0 ∧
    (makeApolloRequest (.thrown m)).data = none ∧
    strStartsWith (errText (makeApolloRequest (.thrown m)).error) "Request failed: " = true := by
  refine ⟨rfl, rfl, rfl, ?_⟩
  show strStartsWith ("Request failed: " ++ m) "Request failed: " = true
  exact strStartsWith_append "Request failed: " m

/-- C9: a 2xx response parsing to a falsy JSON value (`null`, `false`,
`0`, `""`) is a plain success: `data` holds the value, `error` is `null`,
`handleToolError` returns `null`, and the invocation record is
non-error. -/
theorem C9_falsy_success (r : HttpResponse) (v : Json) (n : String) (f : Option Json → String)
    (hok : responseOk r.status = true) (hb : r.bodyJson = .ok v) (hf : v.truthy = false) :
    (makeApolloRequest (.ok r)).data = some v ∧
    (makeApolloRequest (.ok r)).error = none ∧
    (makeApolloRequest (.ok r)).statusCode = r.status ∧
    handleToolError (makeApolloRequest (.ok r)) n = none ∧
    (invokeTool (.ok r) n f).isError = false := by
  have h402 : r.status ≠ 402 := by
    intro h
    rw [h, responseOk_402] at hok
    exact Bool.false_ne_true hok
  simp [makeApolloRequest, invokeTool, handleToolError, errFalsy, h402, hok, hb]

/-- C9 witness for `C9_falsy_success` at the JSON literal `null`. -/
theorem C9_falsy_success_witness :
    (makeApolloRequest (.ok ⟨200, "null", .ok .null⟩)).data = some .null ∧
    (makeApolloRequest (.ok ⟨200, "null", .ok .null⟩)).error = none ∧
    (makeApolloRequest (.ok ⟨200, "null", .ok .null⟩)).statusCode = 200 ∧
    handleToolError (makeApolloRequest (.ok ⟨200, "null", .ok .null⟩)) "T" = none ∧
    (invokeTool (.ok ⟨200, "null", .ok .null⟩) "T" (fun _ => "")).isError = false :=
  C9_falsy_success ⟨200, "null", .ok .null⟩ .null "T" (fun _ => "")
    (by decide) rfl (by decide)

theorem errFalsy_of_ne (s : String) (h : s ≠ "") : errFalsy (some s) = false := by
  simp [errFalsy, h]

theorem formatPreviewResponse_isError (res : ApolloResult) (n : String) :
    (formatPreviewResponse res n).isError = false := rfl

/-- C1: for a 402 response, a body parsing to structured data yields a
payment-required result carrying the parsed body as the preview (with
`priceUsd` equal to the body's `price_usd` field when it is numeric and
`none` otherwise) and a non-error invocation record; a body that fails to
parse yields an invocation record with `isError = true`. -/
theorem C1_402_classification (r : HttpResponse) (n : String) (f : Option Json → String)
    (h : r.status = 402) :
    (∀ b, r.bodyJson = Except.ok b → b.isObjectLike = true →
      (makeApolloRequest (.ok r)).preview = some b ∧
      (makeApolloRequest (.ok r)).statusCode = 402 ∧
      (∀ m s, b.get? "price_usd" = some (.num m s) →
        (makeApolloRequest (.ok r)).priceUsd = some (m, s)) ∧
      ((∀ m s, b.get? "price_usd" ≠ some (.num m s)) →
        (makeApolloRequest (.ok r)).priceUsd = none) ∧
      (invokeTool (.ok r) n f).isError = false) ∧
    (∀ e, r.bodyJson = Except.error e →
      (invokeTool (.ok r) n f).isError = true) := by
  constructor
  · intro b hb hobj
    have hres : makeApolloRequest (.ok r) =
        { data := none, error := some "x402_payment_required", statusCode := 402,
          preview := some b, priceUsd := priceOf b } := by
      simp [makeApolloRequest, h, hb, hobj]
    refine ⟨by rw [hres], by rw [hres], ?_, ?_, ?_⟩
    · intro m s hp
      rw [hres]
      simp [priceOf, hp]
    · intro hp
      rw [hres]
      rcases hq : b.get? "price_usd" with _ | v
      · simp [priceOf, hq]
      · cases v
        case num m s => exact absurd hq (hp m s)
        all_goals simp [priceOf, hq]
    · have htr : b.truthy = true := Json.truthy_of_isObjectLike b hobj
      simp [invokeTool, hres, handleToolError, errFalsy, jsTruthyOpt, htr,
        formatPreviewResponse_isError]
  · intro e hb
    have hres : makeApolloRequest (.ok r) =
        { data := none, error := some "x402_payment_required", statusCode := 402,
          preview := none, priceUsd := none } := by
      simp [makeApolloRequest, h, hb]
    simp [invokeTool, hres, handleToolError, errFalsy, jsTruthyOpt]

/-- C1 witness for `C1_402_classification`: a 402 whose body is the object
`\x7b price_usd: 0.05 \x7d` gives that object as the preview and a non-error
record. -/
theorem C1_402_classification_witness :
    (makeApolloRequest (.ok ⟨402, "", .ok (.obj (.cons "price_usd" (.num 5 2) .nil))⟩)).preview
      = some (.obj (.cons "price_usd" (.num 5 2) .nil)) ∧
    (invokeTool (.ok ⟨402, "", .ok (.obj (.cons "price_usd" (.num 5 2) .nil))⟩)
      "T" (fun _ => "")).isError = false := by
  have h := C1_402_classification ⟨402, "", .ok (.obj (.cons "price_usd" (.num 5 2) .nil))⟩
    "T" (fun _ => "") rfl
  have h2 := h.1 (.obj (.cons "price_usd" (.num 5 2) .nil)) rfl rfl
  exact ⟨h2.1, h2.2.2.2.2⟩

/-- C3: the invocation record has `isError = true` exactly when the
classified result is an error (a non-null error message outside the 402
signal) or a 402 whose body did not parse to structured data; success and
402-with-preview give non-error records. -/
theorem C3_isError_iff (o : FetchOutcome) (n : String) (f : Option Json → String) :
    (invokeTool o n f).isError = true ↔
      ((makeApolloRequest o).error ≠ none ∧ (makeApolloRequest o).statusCode ≠ 402) ∨
      ((makeApolloRequest o).statusCode = 402 ∧ (makeApolloRequest o).preview = none) := by
  cases o with
  | thrown m =>
      have he : errFalsy (some ("Request failed: " ++ m)) = false :=
        errFalsy_of_ne _ (append_ne_empty _ _ (by decide))
      simp [invokeTool, makeApolloRequest, handleToolError, he]
  | ok r =>
      by_cases h402 : r.status = 402
      · cases hb : r.bodyJson with
        | ok b =>
            by_cases hobj : b.isObjectLike = true
            · have htr := Json.truthy_of_isObjectLike b hobj
              simp [invokeTool, makeApolloRequest, handleToolError, errFalsy, jsTruthyOpt,
                h402, hb, hobj, htr, formatPreviewResponse_isError]
            · simp [invokeTool, makeApolloRequest, handleToolError, errFalsy, jsTruthyOpt,
                h402, hb, hobj]
        | error e =>
            simp [invokeTool, makeApolloRequest, handleToolError, errFalsy, jsTruthyOpt,
              h402, hb]
      · by_cases hok : responseOk r.status = true
        · cases hb : r.bodyJson with
          | ok d =>
              simp [invokeTool, makeApolloRequest, handleToolError, errFalsy,
                h402, hok, hb]
          | error e =>
              have he : errFalsy (some ("Request failed: " ++ e)) = false :=
                errFalsy_of_ne _ (append_ne_empty _ _ (by decide))
              simp [invokeTool, makeApolloRequest, handleToolError, he, h402, hok, hb]
        · have he : errFalsy
              (some ("API error (" ++ toString r.status ++ "): " ++ jsSlice r.bodyText 500))
              = false := by
            apply errFalsy_of_ne
            apply append_ne_empty
            apply append_ne_empty
            apply append_ne_empty
            decide
          simp [invokeTool, makeApolloRequest, handleToolError, he, h402, hok]

/-- C4 counterexample: for status 404 with body `not found`, the returned
output text is the tool label plus ` failed: ` plus the classifier
message, not the bare classifier message the claim states. -/
theorem C4_counterexample :
    (invokeTool (.ok ⟨404, "not found", .error "Unexpected token"⟩) "Scrape" (fun _ => "")).text
      = "Scrape failed: API error (404): not found" ∧
    (invokeTool (.ok ⟨404, "not found", .error "Unexpected token"⟩) "Scrape" (fun _ => "")).text
      ≠ "API error (404): not found" ∧
    (invokeTool (.ok ⟨404, "not found", .error "Unexpected token"⟩) "Scrape" (fun _ => "")).isError
      = true := by decide

/-- C4 (amended): for status 404 with body `not found`, the classifier's
error message is exactly `API error (404): not found`; the returned output
text is the tool label followed by ` failed: ` and that message, with
`isError = true`. -/
theorem C4_not_found (r : HttpResponse) (n : String) (f : Option Json → String)
    (hs : r.status = 404) (hb : r.bodyText = "not found") :
    (makeApolloRequest (.ok r)).error = some "API error (404): not found" ∧
    (invokeTool (.ok r) n f).text = n ++ " failed: " ++ "API error (404): not found" ∧
    (invokeTool (.ok r) n f).isError = true := by
  have hres : makeApolloRequest (.ok r) =
      { data := none, error := some "API error (404): not found",
        statusCode := 404, preview := none, priceUsd := none } := by
    have hok404 : responseOk 404 = false := by decide
    simp [makeApolloRequest, hs, hb, hok404]
    all_goals decide
  have he : errFalsy (some "API error (404): not found") = false := by decide
  refine ⟨by rw [hres], ?_, ?_⟩ <;>
    simp [invokeTool, hres, handleToolError, he, errText]

/-- C4 witness for `C4_not_found`. -/
theorem C4_not_found_witness :
    (makeApolloRequest (.ok ⟨404, "not found", .error "e"⟩)).error
      = some "API error (404): not found" ∧
    (invokeTool (.ok ⟨404, "not found", .error "e"⟩) "Scrape" (fun _ => "")).text
      = "Scrape" ++ " failed: " ++ "API error (404): not found" ∧
    (invokeTool (.ok ⟨404, "not found", .error "e"⟩) "Scrape" (fun _ => "")).isError = true :=
  C4_not_found ⟨404, "not found", .error "e"⟩ "Scrape" (fun _ => "") rfl rfl

/-- C5 counterexample: a body containing both `sample_items` (with the
falsy value `null`) and `sample_data` (truthy) selects the value under
`sample_data`, not the value under `sample_items`. -/
theorem C5_counterexample :
    (Json.obj (.cons "sample_items" .null
        (.cons "sample_data" (.arr (.cons (.num 1 0) .nil)) .nil))).get? "sample_items"
      = some .null ∧
    findSample (Json.obj (.cons "sample_items" .null
        (.cons "sample_data" (.arr (.cons (.num 1 0) .nil)) .nil)))
      = some (.arr (.cons (.num 1 0) .nil)) ∧
    findSample (Json.obj (.cons "sample_items" .null
        (.cons "sample_data" (.arr (.cons (.num 1 0) .nil)) .nil)))
      ≠ (Json.obj (.cons "sample_items" .null
        (.cons "sample_data" (.arr (.cons (.num 1 0) .nil)) .nil))).get? "sample_items" := by
  decide

/-- C5 (amended): the probe list is the fixed ordered list of twelve
sample-key names, and the first key present with a truthy value is
selected; in particular, whenever `sample_items` holds a truthy value and
the only earlier key (`sample_opportunities`) does not, the value under
`sample_items` is chosen over `sample_data`. -/
theorem C5_sample_key_order (b : Json)
    (h0 : jsTruthyOpt (b.get? "sample_opportunities") = false)
    (h1 : jsTruthyOpt (b.get? "sample_items") = true) :
    findSample b = b.get? "sample_items" ∧
    sampleKeys = ["sample_opportunities", "sample_items", "sample_results",
      "sample_data", "sample_entries", "sample_launches", "sample_pools",
      "sample_protocols", "sample_coins", "sample_prices",
      "preview_data", "items"] := by
  refine ⟨?_, rfl⟩
  obtain ⟨v, hv⟩ : ∃ v, b.get? "sample_items" = some v := by
    cases hg : b.get? "sample_items" <;> simp_all [jsTruthyOpt]
  have hvt : v.truthy = true := by
    rw [hv] at h1
    simpa [jsTruthyOpt] using h1
  have hprobe0 : probeKey b "sample_opportunities" = none := by
    cases hg : b.get? "sample_opportunities" <;> simp_all [probeKey, jsTruthyOpt]
  have hprobe1 : probeKey b "sample_items" = some v := by
    simp [probeKey, hv, hvt]
  rw [hv]
  simp [findSample, sampleKeys, List.findSome?_cons, hprobe0, hprobe1]

/-- C5 witness for `C5_sample_key_order`. -/
theorem C5_sample_key_order_witness :
    findSample (Json.obj (.cons "sample_items" (.arr (.cons (.num 1 0) .nil))
        (.cons "sample_data" (.arr (.cons (.num 2 0) .nil)) .nil)))
      = (Json.obj (.cons "sample_items" (.arr (.cons (.num 1 0) .nil))
        (.cons "sample_data" (.arr (.cons (.num 2 0) .nil)) .nil))).get? "sample_items" ∧
    sampleKeys = ["sample_opportunities", "sample_items", "sample_results",
      "sample_data", "sample_entries", "sample_launches", "sample_pools",
      "sample_protocols", "sample_coins", "sample_prices",
      "preview_data", "items"] :=
  C5_sample_key_order (Json.obj (.cons "sample_items" (.arr (.cons (.num 1 0) .nil))
    (.cons "sample_data" (.arr (.cons (.num 2 0) .nil)) .nil))) (by decide) (by decide)

/-- The preview body of the C8 example:
`\x7b sample_items: [\x7ba:1\x7d, \x7ba:2\x7d], price_usd: 0.05, total_items: 500 \x7d`. -/
def c8body : Json := .obj (jobj
  [("sample_items", .arr (jarr [.obj (jobj [("a", .num 1 0)]),
                                .obj (jobj [("a", .num 2 0)])])),
   ("price_usd", .num 5 2),
   ("total_items", .num 500 0)])

/-- The record a tool invocation returns for a 402 with the C8 body. -/
def c8rec : OutputRecord := invokeTool (.ok ⟨402, "", .ok c8body⟩) "Search" (fun _ => "")

/-- C8: for a 402 whose body is
`\x7b sample_items: [\x7ba:1\x7d, \x7ba:2\x7d], price_usd: 0.05, total_items: 500 \x7d`,
the rendered output contains the total count `500`, the declared price
`$0.05`, and both sample items, and the record is not an error. -/
theorem C8_preview_example :
    strContains c8rec.text "**Full dataset:** 500 items available" = true ∧
    strContains c8rec.text "$0.05" = true ∧
    strContains c8rec.text "\"a\": 1" = true ∧
    strContains c8rec.text "\"a\": 2" = true ∧
    c8rec.isError = false := by decide

set_option maxRecDepth 100000

/-- C10: `list_countries` is a pure function of the region (its handler
never calls `makeApolloRequest`, so no outbound request occurs); every
record it returns is non-error; `all` selects exactly the 70 codes of the
static `PROXY_COUNTRIES` table (and the output text contains them, joined
as rendered); each named region selects exactly its static sublist. -/
theorem C10_list_countries :
    (∀ region, (list_countries region).isError = false) ∧
    PROXY_COUNTRIES.length = 70 ∧
    countriesFor "all" = PROXY_COUNTRIES ∧
    strContains (list_countries "all").text (joinWith ", " PROXY_COUNTRIES) = true ∧
    countriesFor "americas" =
      ["US", "CA", "MX", "BR", "AR", "CL", "CO", "PE", "VE", "EC", "PA", "CR",
       "GT", "DO", "PR"] ∧
    countriesFor "europe" =
      ["GB", "DE", "FR", "NL", "IT", "ES", "PT", "PL", "CZ", "AT", "CH", "BE",
       "SE", "NO", "DK", "FI", "IE", "GR", "RO", "HU", "BG", "HR", "SK", "SI",
       "UA", "RU", "TR"] ∧
    countriesFor "asia" =
      ["JP", "KR", "SG", "IN", "ID", "TH", "VN", "PH", "MY", "TW", "HK", "PK",
       "BD", "LK", "NP", "MM", "KH", "LA", "MN", "KZ", "IL", "AE", "SA"] ∧
    countriesFor "africa" = ["ZA", "NG", "EG"] ∧
    countriesFor "oceania" = ["AU", "NZ"] := by
  refine ⟨fun region => rfl, ?_⟩
  decide
